import Mathlib

/-!
Shallow embedding of the TrustNet 360 core (src/app.py).

The embedded components are the three stateful classes of the source:
DBIEngine (challenge issuance and single-use validation over the
active_challenges dictionary), TrustCalculator (exponentially smoothed
trust score with threshold classification), and BiometricProcessor
(synthetic biometric sampling).  Every call to the Python pseudo-random
generator is modelled by an explicit parameter of the Lean function;
theorems constrain those parameters to the documented draw ranges.
Python floats are modelled as rationals.  The active_challenges dict is
modelled as an association list with at most one entry per key: insertion
conses the new entry and drops any stale entry with the same key, and
deletion filters the key out, matching dict assignment and del.
-/

/-- The ChallengeType enumeration of src/app.py lines 29-33. -/
inductive ChallengeType where
  | visual_audio
  | cognitive_motor
  | emotional_response
  | environmental_check
  deriving DecidableEq

/-- The .value string of each ChallengeType member. -/
def ChallengeType.value : ChallengeType → String
  | .visual_audio => "visual_audio"
  | .cognitive_motor => "cognitive_motor"
  | .emotional_response => "emotional_response"
  | .environmental_check => "environmental_check"

/-- The DBIChallenge dataclass of src/app.py lines 35-42.  The
validation_criteria dict always holds the single pair (generated, True). -/
structure DBIChallenge where
  challenge_id : String
  challenge_type : ChallengeType
  instruction : String
  expected_duration : ℚ
  validation_criteria : List (String × Bool)
  timestamp : ℚ
  deriving DecidableEq

/-- Opaque payloads (the response_data dict of validate, the JSON bodies). -/
abbrev Payload := List (String × String)

/-- The mutable state of the DBIEngine class: the active_challenges dict
(as an association list keyed by challenge_id) and the challenge_history
list (src/app.py lines 67-69). -/
structure DBIEngine where
  active_challenges : List (String × DBIChallenge)
  challenge_history : List DBIChallenge
  deriving DecidableEq

/-- Dictionary lookup on active_challenges: the Python membership test and
subscript of src/app.py lines 116-119. -/
def lookupChallenge (st : DBIEngine) (challenge_id : String) : Option DBIChallenge :=
  (st.active_challenges.find? (fun p => p.1 == challenge_id)).map (fun p => p.2)

/-- The four corner directions of src/app.py line 78. -/
def directions : List String := ["top-left", "top-right", "bottom-left", "bottom-right"]

/-- The cognitive-motor phrases of src/app.py line 83. -/
def cmPhrases : List String := ["Bank of Baroda", "TrustNet 360", "Secure Banking"]

/-- The cognitive-motor gestures of src/app.py line 84. -/
def cmGestures : List String := ["touch your nose", "raise your right hand", "nod twice"]

/-- The environmental-check actions of src/app.py lines 93-97. -/
def envActions : List String :=
  ["Turn your head slowly left and right",
   "Move slightly closer to the camera",
   "Ensure good lighting on your face"]

/-- The kind-specific instruction templates of src/app.py lines 76-99.
The random.choice and random.randint draws of the source are the index
and number parameters. -/
def mkInstruction (ct : ChallengeType) (nums : List ℕ)
    (dirIdx phraseIdx gestureIdx actionIdx : ℕ) : String :=
  match ct with
  | .visual_audio =>
      "Say the numbers \x27" ++ String.intercalate "-" (nums.map toString) ++
        "\x27 while looking at the " ++ directions.getD dirIdx "" ++ " corner"
  | .cognitive_motor =>
      "Type \x27" ++ cmPhrases.getD phraseIdx "" ++ "\x27 then " ++
        cmGestures.getD gestureIdx ""
  | .emotional_response =>
      "Look naturally at the screen. A surprise image will appear briefly."
  | .environmental_check =>
      envActions.getD actionIdx "" ++ " for environmental verification"

/-- Dict assignment active_challenges[challenge_id] = challenge
(src/app.py line 110) together with the history append (line 111). -/
def insertChallenge (st : DBIEngine) (ch : DBIChallenge) : DBIEngine :=
  { active_challenges := (ch.challenge_id, ch) ::
      st.active_challenges.filter (fun p => !(p.1 == ch.challenge_id)),
    challenge_history := st.challenge_history ++ [ch] }

/-- DBIEngine.generate_challenge (src/app.py lines 71-112).  The random
draws of the source are parameters: ct is random.choice(list(ChallengeType)),
t and suffix build the id string dbi_{t}_{suffix}, nums and the index
parameters feed the instruction template, dur is random.uniform(6.0, 15.0),
now is time.time(). -/
def generate_challenge (st : DBIEngine) (ct : ChallengeType) (t suffix : ℕ)
    (nums : List ℕ) (dirIdx phraseIdx gestureIdx actionIdx : ℕ)
    (dur now : ℚ) : DBIChallenge × DBIEngine :=
  let challenge_id := "dbi_" ++ toString t ++ "_" ++ toString suffix
  let challenge : DBIChallenge :=
    { challenge_id := challenge_id
      challenge_type := ct
      instruction := mkInstruction ct nums dirIdx phraseIdx gestureIdx actionIdx
      expected_duration := dur
      validation_criteria := [("generated", true)]
      timestamp := now }
  (challenge, insertChallenge st challenge)

/-- The two shapes of dict returned by validate_challenge_response:
the not-found failure of src/app.py line 117 (fields valid, error,
confidence) and the full result of lines 125-135 (fields valid,
confidence, challenge_type, the three biometric_signals entries, and
anomalies). -/
inductive ValidationResult where
  | notFound (valid : Bool) (error : String) (confidence : ℚ)
  | found (valid : Bool) (confidence : ℚ) (challenge_type : String)
      (voice_detected face_movement timing_natural : Bool)
      (anomalies : List String)
  deriving DecidableEq

/-- Discriminator for the not-found failure shape. -/
def ValidationResult.isNotFound : ValidationResult → Bool
  | .notFound _ _ _ => true
  | .found _ _ _ _ _ _ _ => false

/-- DBIEngine.validate_challenge_response (src/app.py lines 114-139).
confDraw is random.uniform(0.8, 0.95) and passDraw is random.random();
the source computes valid as passDraw > 0.1.  The response_data payload
is accepted and never used, exactly as in the source.  The returned
engine state reflects the del on line 138. -/
def validate_challenge_response (st : DBIEngine) (challenge_id : String)
    (response_data : Payload) (confDraw passDraw : ℚ) :
    ValidationResult × DBIEngine :=
  match lookupChallenge st challenge_id with
  | none => (.notFound false "Challenge not found" 0, st)
  | some challenge =>
      let confidence := confDraw
      let valid : Bool := decide (passDraw > 1/10)
      let result := ValidationResult.found valid confidence
        challenge.challenge_type.value true true true
        (if valid then [] else ["Suspicious timing pattern"])
      (result,
        { st with active_challenges :=
            st.active_challenges.filter (fun p => !(p.1 == challenge_id)) })

/-- One validate call: target id, payload, confidence draw, pass draw. -/
abbrev ValidateCall := String × Payload × ℚ × ℚ

/-- Sequential execution of a list of validate calls against the engine.
Each call of the source is one atomic step: the async def body of
validate_challenge_response contains no await, so under the single
threaded event loop every interleaving of concurrent calls is equal to
some sequential order of atomic executions. -/
def runValidations : DBIEngine → List ValidateCall →
    List ValidationResult × DBIEngine
  | st, [] => ([], st)
  | st, (cid, rd, c, u) :: rest =>
      let step := validate_challenge_response st cid rd c u
      let restRun := runValidations step.2 rest
      (step.1 :: restRun.1, restRun.2)

/-- The BiometricResult dataclass of src/app.py lines 44-51. -/
structure BiometricResult where
  heart_rate : ℚ
  face_detected : Bool
  confidence : ℚ
  deepfake_probability : ℚ
  liveness_score : ℚ
  timestamp : ℚ
  deriving DecidableEq

/-- BiometricProcessor.process_frame (src/app.py lines 156-185).  The
frame_data input is accepted and never inspected; every field of the
result is a fresh random draw, passed here as parameters: hrDraw is
random.uniform(68, 85), confDraw random.uniform(0.85, 0.95), dfDraw
random.uniform(0.05, 0.15), livDraw random.uniform(0.88, 0.96). -/
def process_frame (frame_data : String)
    (hrDraw confDraw dfDraw livDraw now : ℚ) : BiometricResult :=
  { heart_rate := hrDraw
    face_detected := true
    confidence := confDraw
    deepfake_probability := dfDraw
    liveness_score := livDraw
    timestamp := now }

/-- The TrustScore dataclass of src/app.py lines 53-60. -/
structure TrustScore where
  current_score : ℚ
  trust_level : String
  risk_factors : List String
  confidence : ℚ
  recommended_action : String
  timestamp : ℚ
  deriving DecidableEq

/-- The mutable state of TrustCalculator: the running current_score
(initialised to 75.0) and the bounded score_history
(src/app.py lines 190-192). -/
structure TrustCalculator where
  current_score : ℚ
  score_history : List TrustScore
  deriving DecidableEq

/-- Rounding to one decimal place: the round(x, 1) of src/app.py
line 223, modelled as nearest-integer rounding at scale 10. -/
def roundTo1 (q : ℚ) : ℚ := ((round (10 * q) : ℤ) : ℚ) / 10

/-- TrustCalculator.calculate_trust_score, normal path
(src/app.py lines 194-235).  base_score is random.uniform(70, 90),
fingerprintDraw is the random.random() of line 216, confDraw is
random.uniform(0.8, 0.95), now is time.time().  The stored running
score is the unrounded smoothed value; the returned record carries it
rounded to one decimal.  History is appended and capped at 100 by
dropping the oldest entry. -/
def calculate_trust_score (tc : TrustCalculator)
    (base_score fingerprintDraw confDraw now : ℚ) :
    TrustScore × TrustCalculator :=
  let current_score := 7/10 * tc.current_score + 3/10 * base_score
  let levelAction :=
    if current_score ≥ 85 then ("HIGH", "ALLOW_SEAMLESS")
    else if current_score ≥ 65 then ("MEDIUM", "ALLOW_WITH_MONITORING")
    else ("LOW", "REQUIRE_ADDITIONAL_VERIFICATION")
  let risk_factors :=
    (if current_score < 80 then ["Behavioral pattern variation detected"] else []) ++
    (if fingerprintDraw < 1/5 then ["New device fingerprint"] else [])
  let risk_factors :=
    if risk_factors.isEmpty then ["All metrics within normal range"] else risk_factors
  let result : TrustScore :=
    { current_score := roundTo1 current_score
      trust_level := levelAction.1
      risk_factors := risk_factors
      confidence := confDraw
      recommended_action := levelAction.2
      timestamp := now }
  let history := tc.score_history ++ [result]
  let history := if history.length > 100 then history.drop 1 else history
  (result, { current_score := current_score, score_history := history })

/-- The fixed fallback TrustScore returned by the except branch of
calculate_trust_score (src/app.py lines 237-246). -/
def fallbackTrustScore (now : ℚ) : TrustScore :=
  { current_score := 50
    trust_level := "MEDIUM"
    risk_factors := ["System error"]
    confidence := 0
    recommended_action := "REQUIRE_MANUAL_REVIEW"
    timestamp := now }

/-! Helper lemmas about the challenge registry. -/

/-- Validation of an id absent from the active set: the not-found failure
is returned and the engine state is unchanged. -/
theorem validate_of_none (st : DBIEngine) (cid : String) (rd : Payload)
    (c u : ℚ) (h : lookupChallenge st cid = none) :
    validate_challenge_response st cid rd c u =
      (.notFound false "Challenge not found" 0, st) := by
  unfold validate_challenge_response
  rw [h]

/-- Validation of an id present in the active set: the full result is
returned and the entry is deleted. -/
theorem validate_of_some (st : DBIEngine) (cid : String) (ch : DBIChallenge)
    (rd : Payload) (c u : ℚ) (h : lookupChallenge st cid = some ch) :
    validate_challenge_response st cid rd c u =
      (ValidationResult.found (decide (u > 1/10)) c ch.challenge_type.value
          true true true
          (if decide (u > 1/10) then [] else ["Suspicious timing pattern"]),
       { st with active_challenges :=
           st.active_challenges.filter (fun p => !(p.1 == cid)) }) := by
  unfold validate_challenge_response
  rw [h]

/-- Absence of an id is the same as its key lookup failing on the
association list. -/
theorem lookup_none_iff (st : DBIEngine) (cid : String) :
    lookupChallenge st cid = none ↔
      st.active_challenges.find? (fun p => p.1 == cid) = none := by
  unfold lookupChallenge
  cases st.active_challenges.find? (fun p => p.1 == cid) <;> simp

/-- Key lookup failure is preserved by filtering the list. -/
theorem find?_filter_none {α : Type} (l : List α) (p q : α → Bool)
    (h : l.find? p = none) : (l.filter q).find? p = none := by
  rw [List.find?_eq_none] at h ⊢
  intro x hx
  exact h x (List.mem_filter.mp hx).1

/-- After a validate call on any id, that id is absent from the active
set (removed if it was present, still absent otherwise). -/
theorem lookup_validate_self (st : DBIEngine) (cid : String) (rd : Payload)
    (c u : ℚ) :
    lookupChallenge (validate_challenge_response st cid rd c u).2 cid = none := by
  cases h : lookupChallenge st cid with
  | none => rw [validate_of_none st cid rd c u h]; exact h
  | some ch =>
      rw [validate_of_some st cid ch rd c u h]
      rw [lookup_none_iff]
      rw [List.find?_eq_none]
      intro x hx
      have hmem := (List.mem_filter.mp hx).2
      simp only [Bool.not_eq_true'] at hmem
      simp [hmem]

/-- A validate call never inserts ids: absence of any id is preserved. -/
theorem lookup_validate_preserves_none (st : DBIEngine) (cid cid' : String)
    (rd : Payload) (c u : ℚ) (h : lookupChallenge st cid = none) :
    lookupChallenge (validate_challenge_response st cid' rd c u).2 cid = none := by
  cases h' : lookupChallenge st cid' with
  | none => rw [validate_of_none st cid' rd c u h']; exact h
  | some ch =>
      rw [validate_of_some st cid' ch rd c u h']
      rw [lookup_none_iff] at h ⊢
      exact find?_filter_none _ _ _ h

/-- A whole sequence of validate calls never inserts ids. -/
theorem runValidations_preserves_none (cid : String)
    (calls : List ValidateCall) :
    ∀ (st : DBIEngine), lookupChallenge st cid = none →
      lookupChallenge (runValidations st calls).2 cid = none := by
  induction calls with
  | nil => intro st h; simpa [runValidations] using h
  | cons call rest ih =>
      intro st h
      obtain ⟨cid', rd, c, u⟩ := call
      simp only [runValidations]
      exact ih _ (lookup_validate_preserves_none st cid cid' rd c u h)

/-- Validate calls aimed at an absent id all return the not-found
failure: zero winners, and every one of the results is a failure. -/
theorem runValidations_absent_counts (cid : String)
    (ps : List (Payload × ℚ × ℚ)) :
    ∀ (st : DBIEngine), lookupChallenge st cid = none →
      ((runValidations st (ps.map (fun p => (cid, p.1, p.2.1, p.2.2)))).1.countP
          (fun r => !(ValidationResult.isNotFound r))) = 0 ∧
      ((runValidations st (ps.map (fun p => (cid, p.1, p.2.1, p.2.2)))).1.countP
          (fun r => ValidationResult.isNotFound r)) = ps.length ∧
      (runValidations st (ps.map (fun p => (cid, p.1, p.2.1, p.2.2)))).1.length
          = ps.length := by
  induction ps with
  | nil => intro st h; simp [runValidations]
  | cons p rest ih =>
      intro st h
      obtain ⟨rd, c, u⟩ := p
      have hstep := validate_of_none st cid rd c u h
      have hrest := ih st h
      simp only [List.map_cons, runValidations, hstep]
      refine ⟨?_, ?_, ?_⟩
      · rw [List.countP_cons_of_neg _ _ (by decide)]
        exact hrest.1
      · rw [List.countP_cons_of_pos _ _ (by decide)]
        rw [hrest.2.1, List.length_cons]
      · rw [List.length_cons, List.length_cons, hrest.2.2]

/-! Concrete sample data used by witnesses. -/

/-- A concrete engine state holding exactly one issued challenge. -/
def sampleEngine : DBIEngine :=
  (generate_challenge ⟨[], []⟩ ChallengeType.visual_audio 5 1234
    [10, 20, 30] 0 0 0 0 8 0).2

/-- The challenge issued into sampleEngine. -/
def sampleChallenge : DBIChallenge :=
  (generate_challenge ⟨[], []⟩ ChallengeType.visual_audio 5 1234
    [10, 20, 30] 0 0 0 0 8 0).1

/-! Claim theorems. -/

/-- C1: for every issued challenge (one present in the active set), the
first validate call with its id removes it from the active set whatever
the drawn outcome is, and returns a result that is not the not-found
failure (hence discriminable pass/fail); after that first call, and after
any further sequence of validate calls, a validate call with the same id
returns the not-found failure, so no challenge is validated twice. -/
theorem claim_validate_at_most_once (st : DBIEngine) (cid : String)
    (ch : DBIChallenge) (rd : Payload) (c u : ℚ) (calls : List ValidateCall)
    (rd' : Payload) (c' u' : ℚ) (h : lookupChallenge st cid = some ch) :
    (validate_challenge_response st cid rd c u).1.isNotFound = false ∧
    lookupChallenge (validate_challenge_response st cid rd c u).2 cid = none ∧
    (validate_challenge_response
        (runValidations (validate_challenge_response st cid rd c u).2 calls).2
        cid rd' c' u').1 = .notFound false "Challenge not found" 0 := by
  refine ⟨?_, lookup_validate_self st cid rd c u, ?_⟩
  · rw [validate_of_some st cid ch rd c u h]
    rfl
  · have h2 := runValidations_preserves_none cid calls _
      (lookup_validate_self st cid rd c u)
    rw [validate_of_none _ cid rd' c' u' h2]

/-- Witness for C1 at a concrete issued challenge and concrete draws. -/
theorem claim_validate_at_most_once_witness :
    lookupChallenge sampleEngine "dbi_5_1234" = some sampleChallenge ∧
    ((validate_challenge_response sampleEngine "dbi_5_1234" []
        (9/10) (1/2)).1.isNotFound = false ∧
     lookupChallenge (validate_challenge_response sampleEngine "dbi_5_1234" []
        (9/10) (1/2)).2 "dbi_5_1234" = none ∧
     (validate_challenge_response
        (runValidations (validate_challenge_response sampleEngine "dbi_5_1234" []
            (9/10) (1/2)).2
          [("dbi_5_1234", [], 1/2, 1/2)]).2
        "dbi_5_1234" [] (1/2) (1/4)).1 = .notFound false "Challenge not found" 0) :=
  ⟨by decide,
   claim_validate_at_most_once sampleEngine "dbi_5_1234" sampleChallenge []
     (9/10) (1/2) [("dbi_5_1234", [], 1/2, 1/2)] [] (1/2) (1/4) (by decide)⟩

/-- C2: one trust-score update stores exactly 0.7 times the previous value
plus 0.3 times the fresh sample; for a sample in [70, 90] the stored value
stays inside the convex hull of the previous value and [70, 90]. -/
theorem claim_trust_update_convex (tc : TrustCalculator) (s fd c now : ℚ)
    (h1 : 70 ≤ s) (h2 : s ≤ 90) :
    (calculate_trust_score tc s fd c now).2.current_score
        = 7/10 * tc.current_score + 3/10 * s ∧
    min tc.current_score 70 ≤ (calculate_trust_score tc s fd c now).2.current_score ∧
    (calculate_trust_score tc s fd c now).2.current_score ≤ max tc.current_score 90 := by
  have he : (calculate_trust_score tc s fd c now).2.current_score
      = 7/10 * tc.current_score + 3/10 * s := rfl
  refine ⟨he, ?_, ?_⟩
  · rw [he]
    rcases le_total tc.current_score 70 with hp | hp
    · rw [min_eq_left hp]; linarith
    · rw [min_eq_right hp]; linarith
  · rw [he]
    rcases le_total tc.current_score 90 with hp | hp
    · rw [max_eq_right hp]; linarith
    · rw [max_eq_left hp]; linarith

/-- Witness for C2 at previous value 75 and sample 80. -/
theorem claim_trust_update_convex_witness :
    ((70:ℚ) ≤ 80 ∧ (80:ℚ) ≤ 90) ∧
    ((calculate_trust_score ⟨75, []⟩ 80 (1/2) (1/2) 0).2.current_score
        = 7/10 * (TrustCalculator.mk 75 []).current_score + 3/10 * 80 ∧
     min (TrustCalculator.mk 75 []).current_score 70
        ≤ (calculate_trust_score ⟨75, []⟩ 80 (1/2) (1/2) 0).2.current_score ∧
     (calculate_trust_score ⟨75, []⟩ 80 (1/2) (1/2) 0).2.current_score
        ≤ max (TrustCalculator.mk 75 []).current_score 90) :=
  ⟨⟨by norm_num, by norm_num⟩,
   claim_trust_update_convex ⟨75, []⟩ 80 (1/2) (1/2) 0 (by norm_num) (by norm_num)⟩

/-- C3: validate returns the not-found failure record (valid false, the
fixed error text, confidence 0) exactly when the id is absent from the
active set, which covers never-issued ids and already-consumed ids alike;
the failure is an ordinary return value of the total function, not an
exception. -/
theorem claim_validate_not_found_iff (st : DBIEngine) (cid : String)
    (rd : Payload) (c u : ℚ) :
    (validate_challenge_response st cid rd c u).1
        = .notFound false "Challenge not found" 0
      ↔ lookupChallenge st cid = none := by
  constructor
  · intro h
    cases hlk : lookupChallenge st cid with
    | none => rfl
    | some ch =>
        rw [validate_of_some st cid ch rd c u hlk] at h
        exact absurd h (by simp)
  · intro h
    rw [validate_of_none st cid rd c u h]

/-- Witness for C3 on an empty engine and a never-issued id. -/
theorem claim_validate_not_found_iff_witness :
    ((validate_challenge_response ⟨[], []⟩ "never_issued" [] (1/2) (1/2)).1
        = .notFound false "Challenge not found" 0
      ↔ lookupChallenge ⟨[], []⟩ "never_issued" = none) :=
  claim_validate_not_found_iff ⟨[], []⟩ "never_issued" [] (1/2) (1/2)

/-- C4: when the id is found, the result carries the drawn confidence,
which lies in [0.80, 0.95], a valid flag true exactly when the pass draw
exceeds 0.1, the kind of the stored challenge, the three signals fixed
true, and anomalies empty on pass and the single suspicious-timing entry
on fail. -/
theorem claim_validate_found_result (st : DBIEngine) (cid : String)
    (ch : DBIChallenge) (rd : Payload) (c u : ℚ)
    (h : lookupChallenge st cid = some ch) (hc1 : 4/5 ≤ c) (hc2 : c ≤ 19/20) :
    ∃ valid : Bool,
      (validate_challenge_response st cid rd c u).1
          = .found valid c ch.challenge_type.value true true true
              (if valid then [] else ["Suspicious timing pattern"]) ∧
      (valid = true ↔ u > 1/10) ∧
      4/5 ≤ c ∧ c ≤ 19/20 := by
  refine ⟨decide (u > 1/10), ?_, ?_, hc1, hc2⟩
  · rw [validate_of_some st cid ch rd c u h]
  · exact decide_eq_true_iff

/-- Witness for C4 at a concrete issued challenge, confidence draw 0.9
and pass draw 0.5. -/
theorem claim_validate_found_result_witness :
    (lookupChallenge sampleEngine "dbi_5_1234" = some sampleChallenge ∧
     (4:ℚ)/5 ≤ 9/10 ∧ (9:ℚ)/10 ≤ 19/20) ∧
    (∃ valid : Bool,
      (validate_challenge_response sampleEngine "dbi_5_1234" [] (9/10) (1/2)).1
          = .found valid (9/10) sampleChallenge.challenge_type.value true true true
              (if valid then [] else ["Suspicious timing pattern"]) ∧
      (valid = true ↔ (1:ℚ)/2 > 1/10) ∧
      (4:ℚ)/5 ≤ 9/10 ∧ (9:ℚ)/10 ≤ 19/20) :=
  ⟨⟨by decide, by norm_num, by norm_num⟩,
   claim_validate_found_result sampleEngine "dbi_5_1234" sampleChallenge []
     (9/10) (1/2) (by decide) (by norm_num) (by norm_num)⟩

/-- C5: on the normal path the trust level and recommended action are the
pair determined by the updated smoothed value through the fixed 85 and 65
thresholds. -/
theorem claim_trust_level_thresholds (tc : TrustCalculator) (s fd c now : ℚ) :
    (85 ≤ 7/10 * tc.current_score + 3/10 * s →
        (calculate_trust_score tc s fd c now).1.trust_level = "HIGH" ∧
        (calculate_trust_score tc s fd c now).1.recommended_action
          = "ALLOW_SEAMLESS") ∧
    (65 ≤ 7/10 * tc.current_score + 3/10 * s →
        7/10 * tc.current_score + 3/10 * s < 85 →
        (calculate_trust_score tc s fd c now).1.trust_level = "MEDIUM" ∧
        (calculate_trust_score tc s fd c now).1.recommended_action
          = "ALLOW_WITH_MONITORING") ∧
    (7/10 * tc.current_score + 3/10 * s < 65 →
        (calculate_trust_score tc s fd c now).1.trust_level = "LOW" ∧
        (calculate_trust_score tc s fd c now).1.recommended_action
          = "REQUIRE_ADDITIONAL_VERIFICATION") := by
  refine ⟨fun h1 => ?_, fun h2 h3 => ?_, fun h4 => ?_⟩
  · constructor <;> simp [calculate_trust_score, ge_iff_le, h1]
  · constructor <;>
      simp [calculate_trust_score, ge_iff_le, h2, not_le.mpr h3]
  · have h85 : ¬ 85 ≤ 7/10 * tc.current_score + 3/10 * s :=
      not_le.mpr (h4.trans (by norm_num))
    have h65 : ¬ 65 ≤ 7/10 * tc.current_score + 3/10 * s := not_le.mpr h4
    constructor <;> simp [calculate_trust_score, ge_iff_le, h85, h65]

/-- Witness for C5: previous value 100 and sample 90 land in the HIGH
band, and the MEDIUM and LOW implications are exercised at 75/80 and
10/70. -/
theorem claim_trust_level_thresholds_witness :
    (85 ≤ (7:ℚ)/10 * 100 + 3/10 * 90 ∧
      (calculate_trust_score ⟨100, []⟩ 90 (1/2) (1/2) 0).1.trust_level = "HIGH" ∧
      (calculate_trust_score ⟨100, []⟩ 90 (1/2) (1/2) 0).1.recommended_action
        = "ALLOW_SEAMLESS") ∧
    (65 ≤ (7:ℚ)/10 * 75 + 3/10 * 80 ∧ (7:ℚ)/10 * 75 + 3/10 * 80 < 85 ∧
      (calculate_trust_score ⟨75, []⟩ 80 (1/2) (1/2) 0).1.trust_level = "MEDIUM" ∧
      (calculate_trust_score ⟨75, []⟩ 80 (1/2) (1/2) 0).1.recommended_action
        = "ALLOW_WITH_MONITORING") ∧
    ((7:ℚ)/10 * 10 + 3/10 * 70 < 65 ∧
      (calculate_trust_score ⟨10, []⟩ 70 (1/2) (1/2) 0).1.trust_level = "LOW" ∧
      (calculate_trust_score ⟨10, []⟩ 70 (1/2) (1/2) 0).1.recommended_action
        = "REQUIRE_ADDITIONAL_VERIFICATION") :=
  ⟨⟨by norm_num,
    (claim_trust_level_thresholds ⟨100, []⟩ 90 (1/2) (1/2) 0).1 (by norm_num)⟩,
   ⟨by norm_num, by norm_num,
    (claim_trust_level_thresholds ⟨75, []⟩ 80 (1/2) (1/2) 0).2.1
      (by norm_num) (by norm_num)⟩,
   ⟨by norm_num,
    (claim_trust_level_thresholds ⟨10, []⟩ 70 (1/2) (1/2) 0).2.2 (by norm_num)⟩⟩

/-- The risk-factor list of the normal path, evaluated in all four
combinations of the two triggers. -/
theorem risk_factors_eq (tc : TrustCalculator) (s fd c now : ℚ) :
    (calculate_trust_score tc s fd c now).1.risk_factors
      = if 7/10 * tc.current_score + 3/10 * s < 80 then
          (if fd < 1/5 then
            ["Behavioral pattern variation detected", "New device fingerprint"]
           else ["Behavioral pattern variation detected"])
        else
          (if fd < 1/5 then ["New device fingerprint"]
           else ["All metrics within normal range"]) := by
  have hrf : (calculate_trust_score tc s fd c now).1.risk_factors
      = (if ((if 7/10 * tc.current_score + 3/10 * s < 80
              then ["Behavioral pattern variation detected"] else []) ++
             (if fd < 1/5 then ["New device fingerprint"] else [])).isEmpty
         then ["All metrics within normal range"]
         else (if 7/10 * tc.current_score + 3/10 * s < 80
              then ["Behavioral pattern variation detected"] else []) ++
              (if fd < 1/5 then ["New device fingerprint"] else [])) := rfl
  rw [hrf]
  split_ifs <;> simp_all

/-- C6: the risk-factor list is never empty, on the normal or the
fallback path; it contains the behavioural-variation entry whenever the
updated value is below 80, contains the device-fingerprint entry when
that draw fires, and collapses to the single within-normal-range entry
when no factor was triggered. -/
theorem claim_risk_factors_nonempty (tc : TrustCalculator) (s fd c now : ℚ) :
    (calculate_trust_score tc s fd c now).1.risk_factors ≠ [] ∧
    (7/10 * tc.current_score + 3/10 * s < 80 →
      "Behavioral pattern variation detected"
        ∈ (calculate_trust_score tc s fd c now).1.risk_factors) ∧
    (fd < 1/5 →
      "New device fingerprint"
        ∈ (calculate_trust_score tc s fd c now).1.risk_factors) ∧
    (¬ 7/10 * tc.current_score + 3/10 * s < 80 → ¬ fd < 1/5 →
      (calculate_trust_score tc s fd c now).1.risk_factors
        = ["All metrics within normal range"]) ∧
    (fallbackTrustScore now).risk_factors ≠ [] := by
  have heq := risk_factors_eq tc s fd c now
  refine ⟨?_, fun ha => ?_, fun hb => ?_, fun hc hd => ?_,
    by simp [fallbackTrustScore]⟩
  · rw [heq]
    split_ifs <;> simp_all
  · rw [heq, if_pos ha]
    split_ifs <;> simp_all
  · rw [heq]
    split_ifs <;> simp_all
  · rw [heq, if_neg hc, if_neg hd]

/-- Witness for C6 at previous value 75, sample 70 (updated value 73.5,
below 80) and a firing fingerprint draw. -/
theorem claim_risk_factors_nonempty_witness :
    ((7:ℚ)/10 * 75 + 3/10 * 70 < 80 ∧ (0:ℚ) < 1/5) ∧
    ((calculate_trust_score ⟨75, []⟩ 70 0 (1/2) 0).1.risk_factors ≠ [] ∧
     (7/10 * (TrustCalculator.mk 75 []).current_score + 3/10 * 70 < 80 →
       "Behavioral pattern variation detected"
         ∈ (calculate_trust_score ⟨75, []⟩ 70 0 (1/2) 0).1.risk_factors) ∧
     ((0:ℚ) < 1/5 →
       "New device fingerprint"
         ∈ (calculate_trust_score ⟨75, []⟩ 70 0 (1/2) 0).1.risk_factors) ∧
     (¬ 7/10 * (TrustCalculator.mk 75 []).current_score + 3/10 * 70 < 80 →
       ¬ (0:ℚ) < 1/5 →
       (calculate_trust_score ⟨75, []⟩ 70 0 (1/2) 0).1.risk_factors
         = ["All metrics within normal range"]) ∧
     (fallbackTrustScore 0).risk_factors ≠ []) :=
  ⟨⟨by norm_num, by norm_num⟩,
   claim_risk_factors_nonempty ⟨75, []⟩ 70 0 (1/2) 0⟩

/-- C7: the fallback TrustScore produced when an unexpected internal fault
is caught carries exactly value 50, level MEDIUM, the single System error
risk factor, confidence 0 and the manual-review action; the normal path
itself is a total function, so no error condition exists under normal
operation. -/
theorem claim_fallback_trust_score (now : ℚ) :
    (fallbackTrustScore now).current_score = 50 ∧
    (fallbackTrustScore now).trust_level = "MEDIUM" ∧
    (fallbackTrustScore now).risk_factors = ["System error"] ∧
    (fallbackTrustScore now).confidence = 0 ∧
    (fallbackTrustScore now).recommended_action = "REQUIRE_MANUAL_REVIEW" :=
  ⟨rfl, rfl, rfl, rfl, rfl⟩

/-- C8: two-run noninterference of the opaque payload arguments: with the
same state and the same random draws, the frame sampler yields the same
reading on any two frame payloads, and validate yields the same result
and state on any two response payloads. -/
theorem claim_payload_noninterference (f1 f2 : String)
    (hr cf df lv now : ℚ) (st : DBIEngine) (cid : String)
    (rd1 rd2 : Payload) (c u : ℚ) :
    process_frame f1 hr cf df lv now = process_frame f2 hr cf df lv now ∧
    validate_challenge_response st cid rd1 c u
        = validate_challenge_response st cid rd2 c u :=
  ⟨rfl, rfl⟩

/-- C9: a batch of validate calls all aimed at one issued id, executed in
any sequential order of the atomic calls (the async body has no await
point, so every concurrent interleaving equals such an order), yields
exactly one result that is not the not-found failure and all remaining
results equal to it. -/
theorem claim_concurrent_single_winner (st : DBIEngine) (cid : String)
    (ch : DBIChallenge) (p0 : Payload × ℚ × ℚ) (ps : List (Payload × ℚ × ℚ))
    (h : lookupChallenge st cid = some ch) :
    ((runValidations st ((p0 :: ps).map (fun p => (cid, p.1, p.2.1, p.2.2)))).1.countP
        (fun r => !(ValidationResult.isNotFound r))) = 1 ∧
    ((runValidations st ((p0 :: ps).map (fun p => (cid, p.1, p.2.1, p.2.2)))).1.countP
        (fun r => ValidationResult.isNotFound r)) = ps.length ∧
    (runValidations st ((p0 :: ps).map (fun p => (cid, p.1, p.2.1, p.2.2)))).1.length
        = ps.length + 1 := by
  obtain ⟨rd, c, u⟩ := p0
  have hstep := validate_of_some st cid ch rd c u h
  have hnone : lookupChallenge (validate_challenge_response st cid rd c u).2 cid
      = none := lookup_validate_self st cid rd c u
  have hrest := runValidations_absent_counts cid ps _ hnone
  simp only [hstep] at hrest
  simp only [List.map_cons, runValidations, hstep]
  refine ⟨?_, ?_, ?_⟩
  · rw [List.countP_cons_of_pos _ _ (by rfl)]
    rw [hrest.1]
  · rw [List.countP_cons_of_neg _ _ (by simp [ValidationResult.isNotFound])]
    exact hrest.2.1
  · rw [List.length_cons, hrest.2.2]

/-- Witness for C9: two calls race for one issued challenge; the first
wins and the second gets the not-found failure. -/
theorem claim_concurrent_single_winner_witness :
    lookupChallenge sampleEngine "dbi_5_1234" = some sampleChallenge ∧
    (((runValidations sampleEngine
        (([([], 1/2, 1/2), ([], 1/3, 1/3)]
            : List (Payload × ℚ × ℚ)).map
          (fun p => ("dbi_5_1234", p.1, p.2.1, p.2.2)))).1.countP
        (fun r => !(ValidationResult.isNotFound r))) = 1 ∧
     ((runValidations sampleEngine
        (([([], 1/2, 1/2), ([], 1/3, 1/3)]
            : List (Payload × ℚ × ℚ)).map
          (fun p => ("dbi_5_1234", p.1, p.2.1, p.2.2)))).1.countP
        (fun r => ValidationResult.isNotFound r))
        = ([([], 1/3, 1/3)] : List (Payload × ℚ × ℚ)).length ∧
     (runValidations sampleEngine
        (([([], 1/2, 1/2), ([], 1/3, 1/3)]
            : List (Payload × ℚ × ℚ)).map
          (fun p => ("dbi_5_1234", p.1, p.2.1, p.2.2)))).1.length
        = ([([], 1/3, 1/3)] : List (Payload × ℚ × ℚ)).length + 1) :=
  ⟨by decide,
   claim_concurrent_single_winner sampleEngine "dbi_5_1234" sampleChallenge
     ([], 1/2, 1/2) [([], 1/3, 1/3)] (by decide)⟩

/-- C10: the returned current_score field is the smoothed value rounded
to one decimal while the stored running value stays unrounded, so the
returned value is within 0.05 of the exact recurrence; at previous value
75.01 and sample 80 the returned value actually differs from the exact
recurrence, so successive returned values need not satisfy it exactly. -/
theorem claim_trust_score_rounding (tc : TrustCalculator) (s fd c now : ℚ) :
    (calculate_trust_score tc s fd c now).1.current_score
        = roundTo1 (7/10 * tc.current_score + 3/10 * s) ∧
    (calculate_trust_score tc s fd c now).2.current_score
        = 7/10 * tc.current_score + 3/10 * s ∧
    |(calculate_trust_score tc s fd c now).1.current_score
        - (7/10 * tc.current_score + 3/10 * s)| ≤ 1/20 ∧
    (calculate_trust_score ⟨7501/100, []⟩ 80 0 0 0).1.current_score
        ≠ 7/10 * (7501/100) + 3/10 * 80 := by
  have h1 : (calculate_trust_score tc s fd c now).1.current_score
      = roundTo1 (7/10 * tc.current_score + 3/10 * s) := rfl
  have hne : (calculate_trust_score ⟨7501/100, []⟩ 80 0 0 0).1.current_score
      ≠ 7/10 * (7501/100) + 3/10 * 80 := by
    have h0 : (calculate_trust_score ⟨7501/100, []⟩ 80 0 0 0).1.current_score
        = ((round ((10:ℚ) * (7/10 * (7501/100) + 3/10 * 80)) : ℤ) : ℚ) / 10 := rfl
    rw [h0]
    have harg : (10:ℚ) * (7/10 * (7501/100) + 3/10 * 80) = 76507/100 := by
      norm_num
    rw [harg, round_eq]
    have hf : ⌊(76507:ℚ)/100 + 1/2⌋ = 765 := by
      rw [Int.floor_eq_iff]
      constructor <;> norm_num
    rw [hf]
    norm_num
  refine ⟨h1, rfl, ?_, hne⟩
  rw [h1]
  set q : ℚ := 7/10 * tc.current_score + 3/10 * s with hq
  have h2 := abs_sub_round (10 * q : ℚ)
  have h3 : roundTo1 q - q = -((10 * q - ((round (10 * q) : ℤ) : ℚ)) / 10) := by
    unfold roundTo1
    ring
  rw [h3, abs_neg, abs_div]
  rw [abs_of_pos (by norm_num : (0:ℚ) < 10)]
  rw [div_le_iff₀ (by norm_num : (0:ℚ) < 10)]
  calc |10 * q - ((round (10 * q) : ℤ) : ℚ)| ≤ 1/2 := h2
    _ ≤ 1/20 * 10 := by norm_num
